import Mathlib

/-!
Verification of the scenario driver `src/rip-simple-network.cc` (an ns-3
RIP simulation driver).  The driver's configuration calls are embedded as
Lean data: node and network creation order, CSMA channel installation,
IPv4 address assignment order, RIP interface exclusions and metrics,
static default routes, routing-table print schedule, the ping
application, and the scheduled link-failure / link-recovery callbacks.

Interface numbering follows the ns-3 IPv4 stack semantics that the
driver's calls rely on: on each node, interface 0 is the loopback created
at stack install time, and subsequent interfaces are appended one per
device in the order the `Ipv4AddressHelper::Assign` calls run (lines
205-224 of the source, nets 1..7 in order).
-/

namespace RipSim

/-- The six nodes created in `main` (source lines 125-136). -/
inductive Node
  | SRC
  | DST
  | A
  | B
  | C
  | D
deriving DecidableEq, Fintype, Repr

/-- The seven networks: one per `NodeContainer` net1..net7 (lines 138-144). -/
inductive NetId
  | net1
  | net2
  | net3
  | net4
  | net5
  | net6
  | net7
deriving DecidableEq, Fintype, Repr

open Node NetId

/-- Endpoint pair of each network, in `NodeContainer` declaration order
(source lines 138-144): `net1(src, a)`, `net2(a, b)`, `net3(a, c)`,
`net4(b, c)`, `net5(c, d)`, `net6(b, d)`, `net7(d, dst)`. -/
def netEndpoints : NetId → Node × Node
  | net1 => (SRC, A)
  | net2 => (A, B)
  | net3 => (A, C)
  | net4 => (B, C)
  | net5 => (C, D)
  | net6 => (B, D)
  | net7 => (D, DST)

/-- Subnet base handed to `Ipv4AddressHelper::SetBase` for each network
(source lines 205-224): 10.0.0.0 for net1 up to 10.0.6.0 for net7. -/
def subnetOf : NetId → Nat × Nat × Nat × Nat
  | net1 => (10, 0, 0, 0)
  | net2 => (10, 0, 1, 0)
  | net3 => (10, 0, 2, 0)
  | net4 => (10, 0, 3, 0)
  | net5 => (10, 0, 4, 0)
  | net6 => (10, 0, 5, 0)
  | net7 => (10, 0, 6, 0)

/-- The mask passed to every `SetBase` call (source lines 205-224). -/
def netMask : Nat × Nat × Nat × Nat := (255, 255, 255, 0)

/-- CSMA channel delay in milliseconds set before each `csma.Install`
(source lines 154-173). -/
def linkDelayMs : NetId → Nat
  | net1 => 2
  | net2 => 3
  | net3 => 4
  | net4 => 2
  | net5 => 5
  | net6 => 2
  | net7 => 2

/-- The order in which `ipv4.Assign` runs (source lines 205-224):
iic1 through iic7.  This order decides the per-node IPv4 interface
indices. -/
def assignOrder : List NetId :=
  [net1, net2, net3, net4, net5, net6, net7]

/-- The networks a node is attached to, in IPv4 interface-index order
(device interfaces are appended to a node's IPv4 stack in `Assign`
order; loopback occupies index 0). -/
def netsOf (n : Node) : List NetId :=
  assignOrder.filter fun net =>
    decide (n = (netEndpoints net).1 ∨ n = (netEndpoints net).2)

/-- IPv4 interface index of node `n` on network `net`: 1 + its position
among `n`'s attachments in assignment order (loopback is index 0). -/
def ifaceIndex (n : Node) (net : NetId) : Option Nat :=
  ((netsOf n).findIdx? fun m => decide (m = net)).map (· + 1)

/-- The network an IPv4 interface index of node `n` lies on (none for the
loopback index 0 and for out-of-range indices). -/
def netOfIface (n : Node) (i : Nat) : Option NetId :=
  if i = 0 then none else (netsOf n).get? (i - 1)

/-- IPv4 address (as four octets) of node `n` on network `net`:
`Ipv4AddressHelper` assigns host .1 to the first device installed on the
net and .2 to the second, in `NodeContainer` order. -/
def addrOf (n : Node) (net : NetId) : Option (Nat × Nat × Nat × Nat) :=
  let e := netEndpoints net
  let base := subnetOf net
  if n = e.1 then some (base.1, base.2.1, base.2.2.1, 1)
  else if n = e.2 then some (base.1, base.2.1, base.2.2.1, 2)
  else none

/-- The `ripRouting.ExcludeInterface` calls of `main`, in source order
(lines 180-181): `(a, 1)` and `(d, 3)`. -/
def excludeInterfaceCalls : List (Node × Nat) :=
  [(A, 1), (D, 3)]

/-- An interface is RIP-excluded iff one of the `ExcludeInterface` calls
names it. -/
def ripExcluded (n : Node) (i : Nat) : Prop :=
  (n, i) ∈ excludeInterfaceCalls

instance (n : Node) (i : Nat) : Decidable (ripExcluded n i) := by
  unfold ripExcluded
  infer_instance

/-- The `ripRouting.SetInterfaceMetric` calls of `main`, in source order
(lines 184-187): `(c, 3, 10)`, `(d, 1, 10)`, `(b, 2, 5)`, `(c, 1, 5)`. -/
def setInterfaceMetricCalls : List (Node × Nat × Nat) :=
  [(C, 3, 10), (D, 1, 10), (B, 2, 5), (C, 1, 5)]

/-- Effective RIP interface metric: the last `SetInterfaceMetric` call for
`(n, i)` wins (the helper stores them in a map), and interfaces never
named keep the RIP default metric 1. -/
def interfaceMetric (n : Node) (i : Nat) : Nat :=
  match setInterfaceMetricCalls.reverse.find? (fun c => decide (c.1 = n ∧ c.2.1 = i)) with
  | some c => c.2.2
  | none => 1

/-- The two `SetDefaultRoute` calls of `main` (source lines 227-234):
`(next-hop address, interface)` per host, src first. -/
def defaultRouteCalls : List (Node × (Nat × Nat × Nat × Nat) × Nat) :=
  [(SRC, (10, 0, 0, 2), 1), (DST, (10, 0, 6, 1), 1)]

/-- The `PrintRoutingTableAt` calls of `main` (source lines 237-255):
guarded by `if (!printRoutingTables)`, routers a, b, c, d at each of
30, 60 and 90 virtual seconds. -/
def printTableEvents (printRoutingTables : Bool) : List (Nat × Node) :=
  if !printRoutingTables then
    [(30, A), (30, B), (30, C), (30, D),
     (60, A), (60, B), (60, C), (60, D),
     (90, A), (90, B), (90, C), (90, D)]
  else []

/-- Ping destination address (source line 261). -/
def pingDest : Nat × Nat × Nat × Nat := (10, 0, 6, 2)

/-- `interPacketInterval = Seconds(1.0)` (source line 260). -/
def pingInterval : Nat := 1

/-- `packetSize = 1024` (source line 259). -/
def pingPacketSize : Nat := 1024

/-- `apps.Start(Seconds(1.0))` (source line 270). -/
def pingStart : Nat := 1

/-- `apps.Stop(Seconds(110.0))` (source line 271). -/
def pingHalt : Nat := 110

/-- The node the ping application is installed on (source line 269). -/
def pingNode : Node := SRC

/-- Split-horizon strategies of the ns-3 RIP enum configured by `main`. -/
inductive SplitHorizonType
  | NO_SPLIT_HORIZON
  | SPLIT_HORIZON
  | POISON_REVERSE
deriving DecidableEq, Repr

/-- The strategy-selection chain of `main` (source lines 110-121): the
exact string "NoSplitHorizon" picks NO_SPLIT_HORIZON, the exact string
"SplitHorizon" picks SPLIT_HORIZON, and the trailing `else` maps every
other string to POISON_REVERSE. -/
def configureSplitHorizon (s : String) : SplitHorizonType :=
  if s = "NoSplitHorizon" then SplitHorizonType.NO_SPLIT_HORIZON
  else if s = "SplitHorizon" then SplitHorizonType.SPLIT_HORIZON
  else SplitHorizonType.POISON_REVERSE

/-- Admin up/down action taken by a scheduled callback. -/
inductive LinkAction
  | down
  | up
deriving DecidableEq, Repr

/-- One `Simulator::Schedule` entry of `main`: fire time, action, the two
nodes passed to the callback, and the two interface indices. -/
structure SchedEntry where
  time : Nat
  act : LinkAction
  nodeA : Node
  nodeB : Node
  ifA : Nat
  ifB : Nat
deriving DecidableEq, Repr

/-- The four scheduled callbacks of `main` (source lines 297-302):
`TearDownLink(b, d, 3, 2)` at 40, `TearDownLink(c, d, 2, 1)` at 60,
`RecoverLink(b, d, 3, 2)` at 80, `RecoverLink(c, d, 2, 1)` at 100. -/
def linkSchedule : List SchedEntry :=
  [⟨40, LinkAction.down, B, D, 3, 2⟩,
   ⟨60, LinkAction.down, C, D, 2, 1⟩,
   ⟨80, LinkAction.up, B, D, 3, 2⟩,
   ⟨100, LinkAction.up, C, D, 2, 1⟩]

/-- `Simulator::Stop(Seconds(131.0))` (source line 305). -/
def haltTime : Nat := 131

/-- Animation-interface state touched by the callbacks: per-node color and
description, as mutated through `UpdateNodeColor` / `UpdateNodeDescription`. -/
structure AnimState where
  nodeColor : Node → Nat × Nat × Nat
  nodeDesc : Node → String

/-- `g_anim->UpdateNodeColor(n, r, g, b)`. -/
def updColor (a : AnimState) (n : Node) (c : Nat × Nat × Nat) : AnimState :=
  { a with nodeColor := fun m => if m = n then c else a.nodeColor m }

/-- `g_anim->UpdateNodeDescription(n, d)`. -/
def updDesc (a : AnimState) (n : Node) (d : String) : AnimState :=
  { a with nodeDesc := fun m => if m = n then d else a.nodeDesc m }

/-- Program state visible to the two scheduled callbacks: per-interface
admin state (`Ipv4::SetUp` / `SetDown`) and the process-wide mutable
animation handle `g_anim` (source line 49), null when no animation
interface is registered. -/
structure SimState where
  adminUp : Node → Nat → Bool
  anim : Option AnimState

/-- `GetObject<Ipv4>()->SetDown(i)` / `SetUp(i)` on one interface. -/
def setIfState (b : Bool) (s : Node → Nat → Bool) (n : Node) (i : Nat) :
    Node → Nat → Bool :=
  fun m j => if m = n ∧ j = i then b else s m j

/-- `TearDownLink(nodeA, nodeB, interfaceA, interfaceB)` (source lines
51-64): set both interfaces admin-down, then, if the global `g_anim`
handle is non-null, color both nodes red and relabel them "Link Down". -/
def tearDownLink (nodeA nodeB : Node) (ifA ifB : Nat) (s : SimState) : SimState :=
  let adm := setIfState false (setIfState false s.adminUp nodeA ifA) nodeB ifB
  match s.anim with
  | none => { adminUp := adm, anim := none }
  | some a =>
    let a1 := updColor a nodeA (255, 0, 0)
    let a2 := updColor a1 nodeB (255, 0, 0)
    let a3 := updDesc a2 nodeA "Link Down"
    let a4 := updDesc a3 nodeB "Link Down"
    { adminUp := adm, anim := some a4 }

/-- `RecoverLink(nodeA, nodeB, interfaceA, interfaceB)` (source lines
66-79): set both interfaces admin-up, then, if `g_anim` is non-null,
color both nodes green and relabel them "Link Up". -/
def recoverLink (nodeA nodeB : Node) (ifA ifB : Nat) (s : SimState) : SimState :=
  let adm := setIfState true (setIfState true s.adminUp nodeA ifA) nodeB ifB
  match s.anim with
  | none => { adminUp := adm, anim := none }
  | some a =>
    let a1 := updColor a nodeA (0, 255, 0)
    let a2 := updColor a1 nodeB (0, 255, 0)
    let a3 := updDesc a2 nodeA "Link Up"
    let a4 := updDesc a3 nodeB "Link Up"
    { adminUp := adm, anim := some a4 }

/-- A concrete program state with the animation handle registered (as in
`main` after line 280): all interfaces up, all nodes black, blank
descriptions. -/
def animState0 : AnimState :=
  { nodeColor := fun _ => (0, 0, 0), nodeDesc := fun _ => "" }

/-- Concrete state used to evaluate the callbacks. -/
def simState0 : SimState :=
  { adminUp := fun _ _ => true, anim := some animState0 }

/-- The command-line flags of `main` (source lines 83-95). -/
structure Flags where
  verbose : Bool
  printRoutingTables : Bool
  showPings : Bool
  splitHorizonStrategy : String
deriving DecidableEq, Repr

/-- Default flag values set before `cmd.Parse` (source lines 83-86). -/
def defaultFlags : Flags :=
  { verbose := false
    printRoutingTables := false
    showPings := false
    splitHorizonStrategy := "NoSplitHorizon" }

/-- Ambient inputs a process run could in principle consult: a wall-clock
reading and a random seed.  `main` reads neither, which is what the
determinism claim asserts. -/
structure Env where
  wallClock : Nat
  randomSeed : Nat

/-- Everything `main` builds and schedules before `Simulator::Run`:
topology, channel delays, addressing, RIP metrics and exclusions, static
routes, table-print schedule, probe application and the failure /
recovery timeline. -/
structure ScenarioConfig where
  splitHorizon : SplitHorizonType
  endpoints : List (NetId × Node × Node)
  subnets : List (NetId × (Nat × Nat × Nat × Nat) × (Nat × Nat × Nat × Nat))
  delays : List (NetId × Nat)
  exclusions : List (Node × Nat)
  metricCalls : List (Node × Nat × Nat)
  defaultRoutes : List (Node × (Nat × Nat × Nat × Nat) × Nat)
  tablePrints : List (Nat × Node)
  probeTarget : Nat × Nat × Nat × Nat
  probeInterval : Nat
  probeSize : Nat
  probeStart : Nat
  probeHalt : Nat
  probeNode : Node
  animFile : String
  schedule : List SchedEntry
  halt : Nat
deriving DecidableEq, Repr

/-- The scenario `main` constructs from its parsed flags.  The ambient
environment is a formal parameter only: the source contains no wall-clock
read and no random draw, so no field of `Env` is consulted. -/
def buildScenario (f : Flags) (_e : Env) : ScenarioConfig :=
  { splitHorizon := configureSplitHorizon f.splitHorizonStrategy
    endpoints := assignOrder.map fun net =>
      (net, (netEndpoints net).1, (netEndpoints net).2)
    subnets := assignOrder.map fun net => (net, subnetOf net, netMask)
    delays := assignOrder.map fun net => (net, linkDelayMs net)
    exclusions := excludeInterfaceCalls
    metricCalls := setInterfaceMetricCalls
    defaultRoutes := defaultRouteCalls
    tablePrints := printTableEvents f.printRoutingTables
    probeTarget := pingDest
    probeInterval := pingInterval
    probeSize := pingPacketSize
    probeStart := pingStart
    probeHalt := pingHalt
    probeNode := pingNode
    animFile := "rip-simple-routing-" ++ f.splitHorizonStrategy ++ ".xml"
    schedule := linkSchedule
    halt := haltTime }

/-- Modelled from the spec: the dispatch-order requirement of the
discrete-event kernel (spec 4.1), which is ns-3 library code and not
under src/.  An event identity is its (fire_time, sequence) key; the
kernel pops events in lexicographically non-decreasing key order, the
sequence counter breaking ties FIFO. -/
def eventLE (a b : Nat × Nat) : Prop :=
  a.1 < b.1 ∨ (a.1 = b.1 ∧ a.2 ≤ b.2)

instance : DecidableRel eventLE := fun a b => by
  unfold eventLE
  infer_instance

instance : IsAntisymm (Nat × Nat) eventLE where
  antisymm := by
    rintro ⟨x, y⟩ ⟨u, v⟩ hab hba
    simp only [eventLE] at hab hba
    have hx : x = u := by omega
    have hy : y = v := by omega
    simp [hx, hy]

/-- C1 (counterexample): the claim puts metric 5 on C's interface on net4
(the B-C link), but C's net4 interface is IPv4 index 2, which no
`SetInterfaceMetric` call names, so it keeps the default metric 1; the
call `SetInterfaceMetric(c, 1, 5)` instead hits C's interface 1, which
lies on net3 (the A-C link). -/
theorem C1_counterexample :
    ifaceIndex Node.C NetId.net4 = some 2 ∧
    interfaceMetric Node.C 2 ≠ 5 ∧
    interfaceMetric Node.C 2 = 1 ∧
    ifaceIndex Node.C NetId.net3 = some 1 ∧
    interfaceMetric Node.C 1 = 5 := by
  decide

/-- C1 (amended): the configured interface metrics are exactly: C's
interface on net5 (C-D) and D's interface on net5 have metric 10, B's
interface on net4 (B-C) and C's interface on net3 (A-C) have metric 5,
and every other interface keeps the default metric 1. -/
theorem C1_interface_metrics :
    ∀ (n : Node) (net : NetId), net ∈ netsOf n →
      (ifaceIndex n net).map (interfaceMetric n) =
        some (if (n = Node.C ∧ net = NetId.net5) ∨ (n = Node.D ∧ net = NetId.net5)
              then 10
              else if (n = Node.B ∧ net = NetId.net4) ∨ (n = Node.C ∧ net = NetId.net3)
              then 5
              else 1) := by
  decide

/-- C1 (witness): instantiating the metric characterization at C's
interface on net5 yields metric 10. -/
theorem C1_interface_metrics_witness :
    NetId.net5 ∈ netsOf Node.C ∧
    (ifaceIndex Node.C NetId.net5).map (interfaceMetric Node.C) = some 10 := by
  refine ⟨by decide, ?_⟩
  have h := C1_interface_metrics Node.C NetId.net5 (by decide)
  simpa using h

/-- C2: evaluating the scheduled timeline: the B-D events at T=40/T=80 do
name both endpoint interfaces of net6 (B-D), and the halt time is 131,
but the T=60/T=100 events name C's interface 2 - which lies on net4, the
B-C link - together with D's interface 1 on net5; C's actual interface on
net5 (C-D) is index 3, which no scheduled event touches. -/
theorem C2_schedule_eval :
    linkSchedule =
      [⟨40, LinkAction.down, Node.B, Node.D, 3, 2⟩,
       ⟨60, LinkAction.down, Node.C, Node.D, 2, 1⟩,
       ⟨80, LinkAction.up, Node.B, Node.D, 3, 2⟩,
       ⟨100, LinkAction.up, Node.C, Node.D, 2, 1⟩] ∧
    haltTime = 131 ∧
    netOfIface Node.B 3 = some NetId.net6 ∧
    netOfIface Node.D 2 = some NetId.net6 ∧
    netOfIface Node.C 2 = some NetId.net4 ∧
    netOfIface Node.D 1 = some NetId.net5 ∧
    ifaceIndex Node.C NetId.net5 = some 3 ∧
    linkSchedule.filter (fun e => decide (e.nodeA = Node.C ∧ e.ifA = 3)) = [] := by
  decide

/-- C3: exactly two interfaces are RIP-excluded - A's interface 1, which
lies on net1 (the SRC-facing side of A), and D's interface 3, which lies
on net7 (the DST-facing side of D) - and no other. -/
theorem C3_rip_exclusions :
    (∀ (n : Node) (i : Nat),
      ripExcluded n i ↔ ((n = Node.A ∧ i = 1) ∨ (n = Node.D ∧ i = 3))) ∧
    netOfIface Node.A 1 = some NetId.net1 ∧
    netOfIface Node.D 3 = some NetId.net7 := by
  refine ⟨?_, by decide, by decide⟩
  intro n i
  simp [ripExcluded, excludeInterfaceCalls, Prod.ext_iff]

/-- C4: the topology is exactly seven networks with the stated endpoint
pairs and subnets, each masked 255.255.255.0, assigned in order
net1..net7. -/
theorem C4_topology :
    netEndpoints NetId.net1 = (Node.SRC, Node.A) ∧
      subnetOf NetId.net1 = (10, 0, 0, 0) ∧
    netEndpoints NetId.net2 = (Node.A, Node.B) ∧
      subnetOf NetId.net2 = (10, 0, 1, 0) ∧
    netEndpoints NetId.net3 = (Node.A, Node.C) ∧
      subnetOf NetId.net3 = (10, 0, 2, 0) ∧
    netEndpoints NetId.net4 = (Node.B, Node.C) ∧
      subnetOf NetId.net4 = (10, 0, 3, 0) ∧
    netEndpoints NetId.net5 = (Node.C, Node.D) ∧
      subnetOf NetId.net5 = (10, 0, 4, 0) ∧
    netEndpoints NetId.net6 = (Node.B, Node.D) ∧
      subnetOf NetId.net6 = (10, 0, 5, 0) ∧
    netEndpoints NetId.net7 = (Node.D, Node.DST) ∧
      subnetOf NetId.net7 = (10, 0, 6, 0) ∧
    netMask = (255, 255, 255, 0) ∧
    assignOrder = [NetId.net1, NetId.net2, NetId.net3, NetId.net4,
                   NetId.net5, NetId.net6, NetId.net7] := by
  decide

/-- C5: the probe application on SRC pings 10.0.6.2 - which is DST's
address on net7 - every 1 virtual second, starting at T=1 and stopping at
T=110. -/
theorem C5_probe_app :
    pingNode = Node.SRC ∧
    pingDest = (10, 0, 6, 2) ∧
    addrOf Node.DST NetId.net7 = some pingDest ∧
    pingInterval = 1 ∧
    pingStart = 1 ∧
    pingHalt = 110 := by
  decide

/-- C6: exactly one static default route per host: SRC's next hop
10.0.0.2 is A's address on net1 and DST's next hop 10.0.6.1 is D's
address on net7. -/
theorem C6_default_routes :
    defaultRouteCalls =
      [(Node.SRC, (10, 0, 0, 2), 1), (Node.DST, (10, 0, 6, 1), 1)] ∧
    addrOf Node.A NetId.net1 = some (10, 0, 0, 2) ∧
    addrOf Node.D NetId.net7 = some (10, 0, 6, 1) := by
  decide

/-- C7 (counterexample): the claim that, apart from the admin state of
the two named interfaces, no global state is mutated fails: with the
process-wide `g_anim` handle registered, `TearDownLink(b, d, 3, 2)`
changes the global animation state (it recolors and relabels nodes B and
D). -/
theorem C7_counterexample :
    (tearDownLink Node.B Node.D 3 2 simState0).anim ≠ simState0.anim := by
  intro h
  have h2 := congrArg (fun o => Option.map (fun a => AnimState.nodeDesc a Node.B) o) h
  simp [tearDownLink, simState0, animState0, updColor, updDesc] at h2

/-- C7 (amended): the handlers set the admin state of exactly the two
named interfaces (down for `TearDownLink`, up for `RecoverLink`) and
publish the event through the process-wide mutable `g_anim` handle when
it is non-null, recoloring and relabeling exactly the two named nodes;
every other interface's admin state and every other node's animation
color and description are left unchanged, and a null handle stays null. -/
theorem C7_handler_frame :
    ∀ (nA nB : Node) (iA iB : Nat) (s : SimState) (m : Node) (j : Nat),
      ((tearDownLink nA nB iA iB s).adminUp m j =
        if (m = nA ∧ j = iA) ∨ (m = nB ∧ j = iB) then false else s.adminUp m j) ∧
      ((recoverLink nA nB iA iB s).adminUp m j =
        if (m = nA ∧ j = iA) ∨ (m = nB ∧ j = iB) then true else s.adminUp m j) ∧
      ((tearDownLink nA nB iA iB s).anim.isSome = s.anim.isSome) ∧
      ((recoverLink nA nB iA iB s).anim.isSome = s.anim.isSome) ∧
      (m ≠ nA → m ≠ nB →
        (tearDownLink nA nB iA iB s).anim.map
            (fun a => (a.nodeColor m, a.nodeDesc m)) =
          s.anim.map (fun a => (a.nodeColor m, a.nodeDesc m)) ∧
        (recoverLink nA nB iA iB s).anim.map
            (fun a => (a.nodeColor m, a.nodeDesc m)) =
          s.anim.map (fun a => (a.nodeColor m, a.nodeDesc m))) := by
  intro nA nB iA iB s m j
  refine ⟨?_, ?_, ?_, ?_, ?_⟩
  · cases hs : s.anim <;>
      simp only [tearDownLink, hs, setIfState] <;> split_ifs <;> tauto
  · cases hs : s.anim <;>
      simp only [recoverLink, hs, setIfState] <;> split_ifs <;> tauto
  · cases hs : s.anim <;> simp [tearDownLink, hs]
  · cases hs : s.anim <;> simp [recoverLink, hs]
  · intro hA hB
    cases hs : s.anim <;>
      simp [tearDownLink, recoverLink, hs, updColor, updDesc, hA, hB]

/-- C7 (witness): at the T=40 call on the concrete initial state, node
A's animation state is untouched while B's interface 3 goes down. -/
theorem C7_handler_frame_witness :
    (tearDownLink Node.B Node.D 3 2 simState0).anim.map
        (fun a => (a.nodeColor Node.A, a.nodeDesc Node.A)) =
      simState0.anim.map (fun a => (a.nodeColor Node.A, a.nodeDesc Node.A)) ∧
    (tearDownLink Node.B Node.D 3 2 simState0).adminUp Node.B 3 = false := by
  constructor
  · exact ((C7_handler_frame Node.B Node.D 3 2 simState0 Node.A 0).2.2.2.2
      (by decide) (by decide)).1
  · have h := (C7_handler_frame Node.B Node.D 3 2 simState0 Node.B 3).1
    simpa using h

/-- C8: the scenario `main` builds is a function of the parsed flags
alone - it is identical across any two ambient environments (no
wall-clock read, no random draw) - and the event-kernel dispatch order is
unique: any two dispatch sequences of the same events that respect the
(fire_time, sequence) ordering are equal, so two runs yield identical
probe-outcome sequences and table snapshots. -/
theorem C8_deterministic :
    (∀ (f : Flags) (e1 e2 : Env), buildScenario f e1 = buildScenario f e2) ∧
    (∀ (t1 t2 : List (Nat × Nat)), t1.Perm t2 →
      t1.Sorted eventLE → t2.Sorted eventLE → t1 = t2) := by
  constructor
  · intro f e1 e2
    rfl
  · intro t1 t2 hp h1 h2
    exact List.eq_of_perm_of_sorted hp h1 h2

/-- C8 (witness): the default-flag scenario is the same under two
different ambient environments, and a concrete sorted event trace is
dispatch-unique. -/
theorem C8_deterministic_witness :
    buildScenario defaultFlags ⟨0, 0⟩ = buildScenario defaultFlags ⟨123, 456⟩ ∧
    ([(1, 0), (1, 1), (2, 2)] : List (Nat × Nat)) = [(1, 0), (1, 1), (2, 2)] := by
  constructor
  · exact C8_deterministic.1 defaultFlags ⟨0, 0⟩ ⟨123, 456⟩
  · exact C8_deterministic.2 [(1, 0), (1, 1), (2, 2)] [(1, 0), (1, 1), (2, 2)]
      (List.Perm.refl _) (by decide) (by decide)

/-- C9: every splitHorizonStrategy string other than the exact
"NoSplitHorizon" and "SplitHorizon" - misspellings included - lands in
the trailing else branch and configures POISON_REVERSE; the selection is
total, so no configuration error is possible. -/
theorem C9_fallback_poison :
    ∀ s : String, s ≠ "NoSplitHorizon" → s ≠ "SplitHorizon" →
      configureSplitHorizon s = SplitHorizonType.POISON_REVERSE := by
  intro s h1 h2
  simp [configureSplitHorizon, h1, h2]

/-- C9 (witness): the misspelling "PoissonReverse" configures
POISON_REVERSE. -/
theorem C9_fallback_poison_witness :
    configureSplitHorizon "PoissonReverse" = SplitHorizonType.POISON_REVERSE :=
  C9_fallback_poison "PoissonReverse" (by decide) (by decide)

/-- C10: the routing-table snapshots of A, B, C, D at T=30, 60, 90 are
scheduled iff printRoutingTables is false (the guard is
`if (!printRoutingTables)`): the default false prints all twelve, and
true suppresses them all. -/
theorem C10_table_snapshots :
    (∀ b : Bool, printTableEvents b ≠ [] ↔ b = false) ∧
    printTableEvents false =
      [(30, Node.A), (30, Node.B), (30, Node.C), (30, Node.D),
       (60, Node.A), (60, Node.B), (60, Node.C), (60, Node.D),
       (90, Node.A), (90, Node.B), (90, Node.C), (90, Node.D)] ∧
    printTableEvents true = [] := by
  decide

end RipSim
